import Mathlib

/-!
Verification development for the GeoNetwork metadata validation rule engine
(src/validator/rules.py, src/validator/validator.py, src/config/config_loader.py).

The Python code is shallowly embedded: `xml.etree.ElementTree` documents become
the `XmlElem`/`XmlForest` mutual inductive, the limited XPath dialect the rules
use (child steps `a/b` and descendant searches `.//a/b`, with `pfx:tag`
namespace expansion) is implemented directly, each rule class becomes a
structure with a `validate` function, and `GeoNetworkValidator.validate`
becomes a function from the parse outcome of the raw text to
`Except PyExc ValidationResult`, where `PyExc` models the Python exceptions
that can escape.  All string operations are re-implemented over `List Char`
(mirroring the semantics of the Python `str` methods used by the source) so
that every definition evaluates by kernel reduction.
-/

set_option maxRecDepth 10000

namespace GRDC

/-- Python exceptions that the modelled code can raise. -/
inductive PyExc : Type where
  | nameError : PyExc
  | attributeError : PyExc
deriving DecidableEq, Repr

/-! ### Python string primitives, re-implemented over `List Char` -/

/-- Characters removed by Python `str.strip()` (ASCII whitespace). -/
def pyIsSpace (c : Char) : Bool :=
  c.toNat == 32 || c.toNat == 9 || c.toNat == 10 || c.toNat == 13 ||
    c.toNat == 11 || c.toNat == 12

/-- Python `str.strip()` on a character list. -/
def trimChars (l : List Char) : List Char :=
  ((l.dropWhile pyIsSpace).reverse.dropWhile pyIsSpace).reverse

/-- Python `str.strip()`. -/
def pyStrip (s : String) : String :=
  ⟨trimChars s.data⟩

/-- Split a character list at every occurrence of a single separator character,
mirroring Python `str.split(sep)` for a one-character `sep` (and
`str.split(sep)` never returns an empty list: `"".split(",") == [""]`). -/
def splitChAux (sep : Char) : List Char → List (List Char)
  | [] => [[]]
  | c :: cs =>
    if c = sep then [] :: splitChAux sep cs
    else
      match splitChAux sep cs with
      | r :: rs => (c :: r) :: rs
      | [] => [[c]]

/-- Python `s.split(sep)` for a one-character separator. -/
def pySplitCh (s : String) (sep : Char) : List String :=
  (splitChAux sep s.data).map (fun l => ⟨l⟩)

/-- Split at every occurrence of a two-character separator, left to right and
non-overlapping, mirroring Python `str.split` on a two-character separator. -/
def splitCh2Aux (a b : Char) : List Char → List (List Char)
  | [] => [[]]
  | [c] => [[c]]
  | c :: d :: cs =>
    if c = a ∧ d = b then [] :: splitCh2Aux a b cs
    else
      match splitCh2Aux a b (d :: cs) with
      | r :: rs => (c :: r) :: rs
      | [] => [[c]]

/-- Python `s.split(sep)` for a two-character separator. -/
def pySplitCh2 (s : String) (a b : Char) : List String :=
  (splitCh2Aux a b s.data).map (fun l => ⟨l⟩)

/-- Python `sub in s` (substring containment). -/
def pyContains (s sub : String) : Bool :=
  s.data.tails.any (fun t => sub.data.isPrefixOf t)

/-- Python `s.startswith(p)`. -/
def pyStartsWith (s p : String) : Bool :=
  p.data.isPrefixOf s.data

/-- ASCII lower-casing of one character, as done by Python `str.lower()` on
the ASCII field names appearing in this code base. -/
def lowerChar : Char → Char
  | 'A' => 'a' | 'B' => 'b' | 'C' => 'c' | 'D' => 'd' | 'E' => 'e' | 'F' => 'f'
  | 'G' => 'g' | 'H' => 'h' | 'I' => 'i' | 'J' => 'j' | 'K' => 'k' | 'L' => 'l'
  | 'M' => 'm' | 'N' => 'n' | 'O' => 'o' | 'P' => 'p' | 'Q' => 'q' | 'R' => 'r'
  | 'S' => 's' | 'T' => 't' | 'U' => 'u' | 'V' => 'v' | 'W' => 'w' | 'X' => 'x'
  | 'Y' => 'y' | 'Z' => 'z'
  | c => c

/-- Python `s.lower()`. -/
def pyLower (s : String) : String :=
  ⟨s.data.map lowerChar⟩

/-- Python `sep.join(xs)`. -/
def pyJoin (sep : String) : List String → String
  | [] => ""
  | [x] => x
  | x :: xs => x ++ sep ++ pyJoin sep xs

/-- Truthiness of a `str`-or-`None` Python value (`None` and `""` are falsy). -/
def pyTruthy : Option String → Bool
  | none => false
  | some s => !s.data.isEmpty

/-- Decimal digit test, as in the regexes `[0-9]` and `\d` used by the source. -/
def isDigitCh (c : Char) : Bool :=
  48 ≤ c.toNat && c.toNat ≤ 57

/-- Uppercase ASCII letter test, as in the regex class `[A-Z]`. -/
def isUpperCh (c : Char) : Bool :=
  65 ≤ c.toNat && c.toNat ≤ 90

/-- Numeric value of a digit list (most significant first). -/
def digitsVal (l : List Char) : Nat :=
  l.foldl (fun n c => n * 10 + (c.toNat - 48)) 0

/-! ### The document model: `xml.etree.ElementTree` elements

A parsed element has an (expanded, `\x7buri\x7dtag`-form) tag, attributes,
optional text, and ordered children.  A mutual inductive is used for the
child list so that all traversals are structurally recursive. -/

mutual
inductive XmlElem : Type where
  | mk (tag : String) (attrs : List (String × String)) (text : Option String)
      (children : XmlForest) : XmlElem
inductive XmlForest : Type where
  | nil : XmlForest
  | cons (hd : XmlElem) (tl : XmlForest) : XmlForest
end

def XmlElem.tag : XmlElem → String
  | .mk t _ _ _ => t

def XmlElem.attrs : XmlElem → List (String × String)
  | .mk _ a _ _ => a

def XmlElem.text : XmlElem → Option String
  | .mk _ _ x _ => x

def XmlElem.children : XmlElem → XmlForest
  | .mk _ _ _ c => c

/-- Python `element.get(key)`: the value of an attribute, or `None`. -/
def XmlElem.get (e : XmlElem) (key : String) : Option String :=
  (e.attrs.find? (fun p => p.1 == key)).map (fun p => p.2)

def XmlForest.toList : XmlForest → List XmlElem
  | .nil => []
  | .cons e es => e :: es.toList

def XmlForest.ofList : List XmlElem → XmlForest
  | [] => .nil
  | e :: es => .cons e (XmlForest.ofList es)

mutual
/-- Python `element.iter()`: the element followed by all of its descendants,
in document (pre-)order.  This is the candidate pool `ElementTree` uses for a
leading `.//` path step. -/
def XmlElem.iterAll : XmlElem → List XmlElem
  | .mk t a x cs => .mk t a x cs :: cs.iterAll
def XmlForest.iterAll : XmlForest → List XmlElem
  | .nil => []
  | .cons e es => e.iterAll ++ es.iterAll
end

/-! ### Path resolution (`ElementTree.find` / `findall` with namespaces)

The rules only ever use plain child paths `seg/seg/...` and descendant paths
`.//seg/seg/...` whose segments are `tag` or `pfx:tag`; this is the dialect
implemented here.  A segment `pfx:tag` is expanded through the namespace
mapping to `\x7buri\x7dtag`, exactly as `ElementTree` rewrites it before
matching against expanded element tags. -/

/-- Expand one path segment through the namespace mapping. -/
def expandSeg (ns : List (String × String)) (seg : String) : String :=
  match pySplitCh seg ':' with
  | [p, t] =>
    match (ns.find? (fun q => q.1 == p)).map (fun q => q.2) with
    | some uri => "\x7b" ++ uri ++ "\x7d" ++ t
    | none => seg
  | _ => seg

/-- One child step: all children of the pool elements whose tag matches. -/
def childStep (es : List XmlElem) (seg : String) : List XmlElem :=
  es.flatMap (fun e => e.children.toList.filter (fun c => c.tag == seg))

/-- Python `element.findall(path, ns)` for the path dialect the rules use. -/
def XmlElem.findall (e : XmlElem) (path : String) (ns : List (String × String)) :
    List XmlElem :=
  match path.data with
  | '.' :: '/' :: '/' :: rest =>
    ((pySplitCh ⟨rest⟩ '/').map (expandSeg ns)).foldl childStep e.iterAll
  | _ =>
    ((pySplitCh path '/').map (expandSeg ns)).foldl childStep [e]

/-- Python `element.find(path, ns)`: the first match, or `None`. -/
def XmlElem.find (e : XmlElem) (path : String) (ns : List (String × String)) :
    Option XmlElem :=
  (e.findall path ns).head?

/-- The fixed prefix-to-URI table `ConfigLoader().namespaces`
(src/config/config_loader.py, `namespaces` property). -/
def namespaces : List (String × String) :=
  [("mdb", "http://standards.iso.org/iso/19115/-3/mdb/2.0"),
   ("xsi", "http://www.w3.org/2001/XMLSchema-instance"),
   ("cat", "http://standards.iso.org/iso/19115/-3/cat/1.0"),
   ("gfc", "http://standards.iso.org/iso/19110/gfc/1.1"),
   ("cit", "http://standards.iso.org/iso/19115/-3/cit/2.0"),
   ("gcx", "http://standards.iso.org/iso/19115/-3/gcx/1.0"),
   ("gex", "http://standards.iso.org/iso/19115/-3/gex/1.0"),
   ("lan", "http://standards.iso.org/iso/19115/-3/lan/1.0"),
   ("srv", "http://standards.iso.org/iso/19115/-3/srv/2.1"),
   ("mas", "http://standards.iso.org/iso/19115/-3/mas/1.0"),
   ("mcc", "http://standards.iso.org/iso/19115/-3/mcc/1.0"),
   ("mco", "http://standards.iso.org/iso/19115/-3/mco/1.0"),
   ("mda", "http://standards.iso.org/iso/19115/-3/mda/1.0"),
   ("mds", "http://standards.iso.org/iso/19115/-3/mds/2.0"),
   ("mdt", "http://standards.iso.org/iso/19115/-3/mdt/2.0"),
   ("mex", "http://standards.iso.org/iso/19115/-3/mex/1.0"),
   ("mmi", "http://standards.iso.org/iso/19115/-3/mmi/1.0"),
   ("mpc", "http://standards.iso.org/iso/19115/-3/mpc/1.0"),
   ("mrc", "http://standards.iso.org/iso/19115/-3/mrc/2.0"),
   ("mrd", "http://standards.iso.org/iso/19115/-3/mrd/1.0"),
   ("mri", "http://standards.iso.org/iso/19115/-3/mri/1.0"),
   ("mrl", "http://standards.iso.org/iso/19115/-3/mrl/2.0"),
   ("mrs", "http://standards.iso.org/iso/19115/-3/mrs/1.0"),
   ("msr", "http://standards.iso.org/iso/19115/-3/msr/2.0"),
   ("mdq", "http://standards.iso.org/iso/19157/-2/mdq/1.0"),
   ("mac", "http://standards.iso.org/iso/19115/-3/mac/2.0"),
   ("gco", "http://standards.iso.org/iso/19115/-3/gco/1.0"),
   ("gml", "http://www.opengis.net/gml/3.2"),
   ("xlink", "http://www.w3.org/1999/xlink"),
   ("gmd", "http://www.isotc211.org/2005/gmd")]

/-! ### Format helpers used by the rules -/

/-- The attribute split `element_path, attr_name = xpath.split("/@")` guarded
by `"/@" in xpath` (src/validator/rules.py lines 23-24 and 53-54): `some`
exactly when the xpath contains a single `/@`.  (An xpath with two or more
occurrences would raise `ValueError` in the source; no such xpath occurs.) -/
def splitAttrPath (xpath : String) : Option (String × String) :=
  match pySplitCh2 xpath '/' '@' with
  | [element_path, attr_name] => some (element_path, attr_name)
  | _ => none

/-- The contract-code regex `^[A-Z]\x7b3\x7d[0-9]\x7b4\x7d-[0-9]\x7b3\x7d-?[A-Z]\x7b3\x7d$`
of src/validator/rules.py line 129: three uppercase letters, four digits, a
hyphen, three digits, an optional hyphen, three uppercase letters. -/
def isContractCode (s : String) : Bool :=
  match s.data with
  | [a1, a2, a3, d1, d2, d3, d4, h1, e1, e2, e3, h2, f1, f2, f3] =>
    isUpperCh a1 && isUpperCh a2 && isUpperCh a3 &&
    isDigitCh d1 && isDigitCh d2 && isDigitCh d3 && isDigitCh d4 &&
    h1 == Char.ofNat 45 &&
    isDigitCh e1 && isDigitCh e2 && isDigitCh e3 &&
    h2 == Char.ofNat 45 &&
    isUpperCh f1 && isUpperCh f2 && isUpperCh f3
  | [a1, a2, a3, d1, d2, d3, d4, h1, e1, e2, e3, f1, f2, f3] =>
    isUpperCh a1 && isUpperCh a2 && isUpperCh a3 &&
    isDigitCh d1 && isDigitCh d2 && isDigitCh d3 && isDigitCh d4 &&
    h1 == Char.ofNat 45 &&
    isDigitCh e1 && isDigitCh e2 && isDigitCh e3 &&
    isUpperCh f1 && isUpperCh f2 && isUpperCh f3
  | _ => false

/-- `strptime` field `%Y`: exactly four digits (and `datetime` then requires
the year to be at least 1). -/
def strpYear (s : String) : Option Nat :=
  match s.data with
  | [a, b, c, d] =>
    if isDigitCh a && isDigitCh b && isDigitCh c && isDigitCh d then
      some (digitsVal [a, b, c, d])
    else none
  | _ => none

/-- `strptime` fields `%m` / `%d`: one or two digits (range checks follow). -/
def strpNum2 (s : String) : Option Nat :=
  match s.data with
  | [a] => if isDigitCh a then some (digitsVal [a]) else none
  | [a, b] => if isDigitCh a && isDigitCh b then some (digitsVal [a, b]) else none
  | _ => none

def isLeapYear (y : Nat) : Bool :=
  y % 4 == 0 && (y % 100 != 0 || y % 400 == 0)

def daysInMonth (y m : Nat) : Nat :=
  if m == 2 then (if isLeapYear y then 29 else 28)
  else if m == 4 || m == 6 || m == 9 || m == 11 then 30
  else 31

/-- Whether `datetime.datetime.strptime(s, "%Y-%m-%d")` succeeds: the whole
string is year-month-day with `-` separators and a valid calendar date. -/
def strptimeYMD (s : String) : Bool :=
  match pySplitCh s (Char.ofNat 45) with
  | [ys, ms, ds] =>
    match strpYear ys, strpNum2 ms, strpNum2 ds with
    | some y, some m, some d =>
      1 ≤ y && 1 ≤ m && m ≤ 12 && 1 ≤ d && d ≤ daysInMonth y m
    | _, _, _ => false
  | _ => false

/-- Whether `datetime.datetime.strptime(s, "%d-%m-%Y")` succeeds. -/
def strptimeDMY (s : String) : Bool :=
  match pySplitCh s (Char.ofNat 45) with
  | [ds, ms, ys] =>
    match strpYear ys, strpNum2 ms, strpNum2 ds with
    | some y, some m, some d =>
      1 ≤ y && 1 ≤ m && m ≤ 12 && 1 ≤ d && d ≤ daysInMonth y m
    | _, _, _ => false
  | _ => false

/-- Sign of a numeric literal: drop one leading `+` or `-`. -/
def dropSign (l : List Char) : List Char :=
  match l with
  | '+' :: r => r
  | '-' :: r => r
  | r => r

/-- Mantissa of a Python float literal: `digits`, `digits.digits`, `digits.`
or `.digits`. -/
def floatMantissa (l : List Char) : Bool :=
  match splitChAux '.' l with
  | [i] => !i.isEmpty && i.all isDigitCh
  | [i, f] => (!i.isEmpty || !f.isEmpty) && i.all isDigitCh && f.all isDigitCh
  | _ => false

/-- Whether Python `float(s)` succeeds on the (already stripped) string `s`:
an optional sign, then `inf`/`infinity`/`nan` (case-insensitive) or a decimal
mantissa with an optional exponent.  (Numeric-literal underscores, accepted by
Python between digits, are not modelled; no rule input uses them.) -/
def floatParses (s : String) : Bool :=
  let body := dropSign (s.data.map lowerChar)
  if body == "inf".data || body == "infinity".data || body == "nan".data then true
  else
    match splitChAux 'e' body with
    | [m] => floatMantissa m
    | [m, ex] =>
      floatMantissa m && (let e2 := dropSign ex; !e2.isEmpty && e2.all isDigitCh)
    | _ => false

/-! ### The rule classes (src/validator/rules.py)

Each `XyzRule` class becomes a structure holding the constructor arguments,
with its `validate` method as a function `XmlElem → Option String` (an error
message, or `None`). -/

/-- `FieldExistsRule(xpath, field_name)` (rules.py lines 16-42). -/
structure FieldExistsRule : Type where
  xpath : String
  field_name : String

/-- `FieldExistsRule.validate` (rules.py lines 21-42).  In the attribute
branch, Python reports the same message for an absent attribute (`get`
returns `None`) and for an empty or whitespace-only value, via the single
test `not value or not value.strip()`. -/
def FieldExistsRule.validate (self : FieldExistsRule) (record : XmlElem) :
    Option String :=
  match splitAttrPath self.xpath with
  | some (element_path, attr_name) =>
    match record.find element_path namespaces with
    | none => some ("Record is missing a " ++ self.field_name ++ " (element not found)")
    | some node =>
      match node.get attr_name with
      | none =>
        some ("Record is missing a " ++ self.field_name ++ " (attribute " ++
          attr_name ++ " missing or empty)")
      | some value =>
        if value.data.isEmpty || (pyStrip value).data.isEmpty then
          some ("Record is missing a " ++ self.field_name ++ " (attribute " ++
            attr_name ++ " missing or empty)")
        else none
  | none =>
    match record.find self.xpath namespaces with
    | none =>
      -- the source has a special-cased `if "title" in self.field_name.lower()`
      -- here, but both branches return the same message
      if pyContains (pyLower self.field_name) "title" then
        some ("Record is missing a " ++ self.field_name)
      else
        some ("Record is missing a " ++ self.field_name)
    | some node =>
      match node.text with
      | none => some ("Record is missing a " ++ self.field_name)
      | some t =>
        if t.data.isEmpty || (pyStrip t).data.isEmpty then
          some ("Record is missing a " ++ self.field_name)
        else none

/-- `ValueInListRule(xpath, allowed_values, field_display_name)`
(rules.py lines 45-70). -/
structure ValueInListRule : Type where
  xpath : String
  allowed_values : List String
  field_display_name : String

/-- `ValueInListRule.validate` (rules.py lines 51-70). -/
def ValueInListRule.validate (self : ValueInListRule) (record : XmlElem) :
    Option String :=
  match splitAttrPath self.xpath with
  | some (element_path, attr_name) =>
    match record.find element_path namespaces with
    | none => some ("Record is missing " ++ self.field_display_name ++ " (element not found)")
    | some node =>
      match node.get attr_name with
      | none =>
        some ("Record is missing " ++ self.field_display_name ++ " (attribute " ++
          attr_name ++ " missing or empty)")
      | some value =>
        if value.data.isEmpty then
          some ("Record is missing " ++ self.field_display_name ++ " (attribute " ++
            attr_name ++ " missing or empty)")
        else if self.allowed_values.contains (pyStrip value) then none
        else
          some ("Record has an invalid " ++ self.field_display_name ++ ": \x27" ++
            pyStrip value ++ "\x27. Allowed values are: " ++
            pyJoin ", " self.allowed_values)
  | none =>
    match record.find self.xpath namespaces with
    | none => some ("Record is missing " ++ self.field_display_name ++ ".")
    | some node =>
      match node.text with
      | none => some ("Record is missing " ++ self.field_display_name ++ ".")
      | some t =>
        if t.data.isEmpty then
          some ("Record is missing " ++ self.field_display_name ++ ".")
        else if self.allowed_values.contains (pyStrip t) then none
        else
          some ("Record has an invalid " ++ self.field_display_name ++ ": \x27" ++
            pyStrip t ++ "\x27. Allowed values are: " ++
            pyJoin ", " self.allowed_values)

/-- `FloatRule(xpath, field_name)` (rules.py lines 73-87). -/
structure FloatRule : Type where
  xpath : String
  field_name : String

/-- `FloatRule.validate` (rules.py lines 78-87). -/
def FloatRule.validate (self : FloatRule) (record : XmlElem) : Option String :=
  match record.find self.xpath namespaces with
  | none => some ("Record is missing " ++ self.field_name)
  | some node =>
    match node.text with
    | none => some ("Record is missing " ++ self.field_name)
    | some t =>
      if t.data.isEmpty || (pyStrip t).data.isEmpty then
        some ("Record is missing " ++ self.field_name)
      else if floatParses (pyStrip t) then none
      else some ("Record has an invalid float: " ++ pyStrip t)

/-- `DateRule(xpath, field_name)` (rules.py lines 90-110). -/
structure DateRule : Type where
  xpath : String
  field_name : String

/-- `DateRule.validate` (rules.py lines 95-110).  When the node is absent or
its text is falsy, the message interpolates
`node.text.strip() if node is not None and node.text else 'None'`, so a
missing node and a missing/empty text both yield the literal text `None`,
while whitespace-only text yields the empty string. -/
def DateRule.validate (self : DateRule) (record : XmlElem) : Option String :=
  match record.find self.xpath namespaces with
  | none => some "Record has an invalid date: None"
  | some node =>
    match node.text with
    | none => some "Record has an invalid date: None"
    | some t =>
      if t.data.isEmpty then some "Record has an invalid date: None"
      else if (pyStrip t).data.isEmpty then
        some ("Record has an invalid date: " ++ pyStrip t)
      else if strptimeYMD (pyStrip t) then none
      else if strptimeDMY (pyStrip t) then none
      else some ("Record has an invalid date: " ++ pyStrip t)

/-- `ValidPurposeRule(xpath, field_display_name)` (rules.py lines 113-133). -/
structure ValidPurposeRule : Type where
  xpath : String
  field_display_name : String

/-- `ValidPurposeRule.validate` (rules.py lines 118-133): the raw text is
split on `,`; exactly two parts are required, and the first part, stripped,
must match the contract-code pattern.  (The surrounding `try/except
ValueError` is dead: neither `split` nor `re.match` raises `ValueError`.) -/
def ValidPurposeRule.validate (self : ValidPurposeRule) (record : XmlElem) :
    Option String :=
  match record.find self.xpath namespaces with
  | none => some ("Record is missing " ++ self.field_display_name)
  | some node =>
    match node.text with
    | none => some ("Record is missing " ++ self.field_display_name)
    | some t =>
      if t.data.isEmpty || (pyStrip t).data.isEmpty then
        some ("Record is missing " ++ self.field_display_name)
      else
        match pySplitCh t ',' with
        | [code, _title] =>
          if isContractCode (pyStrip code) then none
          else
            some ("Record has an invalid contract code: " ++ pyStrip code ++
              ". It should be in the format ABC1234-567-XYZ or ABC1234-567XYZ")
        | _ =>
          some ("Record has an invalid " ++ self.field_display_name ++ ": " ++
            pyStrip t ++
            ". It should be in the format \x27GRDC contract code, project title\x27")

/-- `IdentifierRule(xpath, field_name)` (rules.py lines 136-194). -/
structure IdentifierRule : Type where
  xpath : String
  field_name : String

/-- `IdentifierRule._valid_doi` (rules.py lines 157-168): `None` when the
node or its text is missing, an error string when the raw text does not start
with `10.`, `None` otherwise. -/
def IdentifierRule.valid_doi (self : IdentifierRule) (record : XmlElem) :
    Option String :=
  match record.find self.xpath namespaces with
  | none => none
  | some node =>
    match node.text with
    | none => none
    | some t =>
      if t.data.isEmpty then none
      else if pyStartsWith t "10." then none
      else some ("Record has an invalid doi: " ++ pyStrip t)

/-- `IdentifierRule._valid_handle` (rules.py lines 170-181). -/
def IdentifierRule.valid_handle (self : IdentifierRule) (record : XmlElem) :
    Option String :=
  match record.find self.xpath namespaces with
  | none => none
  | some node =>
    match node.text with
    | none => none
    | some t =>
      if t.data.isEmpty then none
      else if pyStartsWith t "http://hdl.handle.net/" then none
      else some ("Record has an invalid handle: " ++ pyStrip t)

/-- `IdentifierRule._valid_url` (rules.py lines 183-194). -/
def IdentifierRule.valid_url (self : IdentifierRule) (record : XmlElem) :
    Option String :=
  match record.find self.xpath namespaces with
  | none => none
  | some node =>
    match node.text with
    | none => none
    | some t =>
      if t.data.isEmpty then none
      else if pyStartsWith t "http://" || pyStartsWith t "https://" then none
      else some ("Record has an invalid url: " ++ pyStrip t)

/-- `IdentifierRule.validate` (rules.py lines 141-155).  Each helper is
called under `if self._valid_doi(record): return self._valid_doi(record)`,
so a truthy (non-empty) error string from a helper is returned immediately;
only if all three helpers return falsy values does the method fall through
and implicitly return `None`.  (The `except ValueError` branch is dead:
`startswith` never raises `ValueError`.) -/
def IdentifierRule.validate (self : IdentifierRule) (record : XmlElem) :
    Option String :=
  match record.find self.xpath namespaces with
  | none => some ("Record is missing " ++ self.field_name)
  | some node =>
    match node.text with
    | none => some ("Record is missing " ++ self.field_name)
    | some t =>
      if t.data.isEmpty || (pyStrip t).data.isEmpty then
        some ("Record is missing " ++ self.field_name)
      else
        let d := self.valid_doi record
        if pyTruthy d then d
        else
          let h := self.valid_handle record
          if pyTruthy h then h
          else
            let u := self.valid_url record
            if pyTruthy u then u
            else none

/-- `CitationRule(xpath, field_name)` (rules.py lines 197-213; its private
`_valid_given_name`, `_valid_family_name`, `_valid_orcid` and `_valid_role`
helpers are dead code, never called). -/
structure CitationRule : Type where
  xpath : String
  field_name : String

/-- `CitationRule.validate` (rules.py lines 202-213): a missing node or
missing text returns `None` (the rule passes); present text must start with
`http://` or `https://`. -/
def CitationRule.validate (self : CitationRule) (record : XmlElem) :
    Option String :=
  match record.find self.xpath namespaces with
  | none => none
  | some node =>
    match node.text with
    | none => none
    | some t =>
      if t.data.isEmpty then none
      else if pyStartsWith t "http://" || pyStartsWith t "https://" then none
      else some ("Record has an invalid citation: " ++ pyStrip t)

/-- `PrincipalInvestigatorRule(xpath, field_display_name)`
(rules.py lines 268-306). -/
structure PrincipalInvestigatorRule : Type where
  xpath : String
  field_display_name : String

/-- Role test for one party (rules.py lines 278-279):
`role is not None and role.get('codeListValue') == 'principalInvestigator'`. -/
def PrincipalInvestigatorRule.isPI (party : XmlElem) : Bool :=
  match party.find "cit:CI_Responsibility/cit:role/cit:CI_RoleCode" namespaces with
  | some role => role.get "codeListValue" == some "principalInvestigator"
  | none => false

/-- The ORCID sub-check (rules.py lines 293-301): the first ORCID-labelled
online resource with a truthy linkage not containing `orcid.org` produces the
error; all others are skipped. -/
def PrincipalInvestigatorRule.orcidCheck (party : XmlElem) : Option String :=
  (party.findall ".//cit:onlineResource/cit:CI_OnlineResource" namespaces).findSome?
    fun res =>
      match res.find "cit:name/gco:CharacterString" namespaces with
      | none => none
      | some res_name =>
        if res_name.text == some "Orcid" || res_name.text == some "Orchid" then
          match res.find "cit:linkage/gco:CharacterString" namespaces with
          | none => none
          | some linkage =>
            match linkage.text with
            | none => none
            | some lt =>
              if !lt.data.isEmpty && !pyContains lt "orcid.org" then
                some ("Principal Investigator has invalid ORCID URL: " ++ lt)
              else none
        else none

/-- The name/email/ORCID sub-checks run for one principal-investigator party
(rules.py lines 282-301), surfacing only the first failing sub-check. -/
def PrincipalInvestigatorRule.partyCheck (party : XmlElem) : Option String :=
  let name := party.find ".//cit:individual/cit:CI_Individual/cit:name/gco:CharacterString" namespaces
  let nameOK :=
    match name with
    | none => false
    | some n =>
      match n.text with
      | none => false
      | some t => !t.data.isEmpty && !(pyStrip t).data.isEmpty
  if !nameOK then some "Principal Investigator must have a name"
  else
    let emailErr :=
      match party.find ".//cit:electronicMailAddress/gco:CharacterString" namespaces with
      | none => none
      | some email =>
        match email.text with
        | none => none
        | some et =>
          if !et.data.isEmpty && !pyContains et "@" then
            some ("Principal Investigator has invalid email: " ++ et)
          else none
    match emailErr with
    | some e => some e
    | none => PrincipalInvestigatorRule.orcidCheck party

/-- The `for party in parties` loop of rules.py lines 277-306, with the
`pi_found` flag threaded through; after the loop, a record with no
principal-investigator party is an error. -/
def PrincipalInvestigatorRule.loop : List XmlElem → Bool → Option String
  | [], pi_found =>
    if pi_found then none else some "Record must have at least one Principal Investigator"
  | party :: rest, pi_found =>
    if PrincipalInvestigatorRule.isPI party then
      match PrincipalInvestigatorRule.partyCheck party with
      | some e => some e
      | none => PrincipalInvestigatorRule.loop rest true
    else PrincipalInvestigatorRule.loop rest pi_found

/-- `PrincipalInvestigatorRule.validate` (rules.py lines 273-306). -/
def PrincipalInvestigatorRule.validate (self : PrincipalInvestigatorRule)
    (record : XmlElem) : Option String :=
  PrincipalInvestigatorRule.loop (record.findall self.xpath namespaces) false

/-! ### The validator (src/validator/validator.py) -/

/-- The closed set of rule objects a `GeoNetworkValidator` can hold: one
variant per `ValidationRule` subclass of src/validator/rules.py. -/
inductive Rule : Type where
  | fieldExists : FieldExistsRule → Rule
  | valueInList : ValueInListRule → Rule
  | float : FloatRule → Rule
  | date : DateRule → Rule
  | validPurpose : ValidPurposeRule → Rule
  | identifier : IdentifierRule → Rule
  | citation : CitationRule → Rule
  | principalInvestigator : PrincipalInvestigatorRule → Rule

/-- Dynamic dispatch of `rule.validate(root)`. -/
def Rule.validate : Rule → XmlElem → Option String
  | .fieldExists r, root => r.validate root
  | .valueInList r, root => r.validate root
  | .float r, root => r.validate root
  | .date r, root => r.validate root
  | .validPurpose r, root => r.validate root
  | .identifier r, root => r.validate root
  | .citation r, root => r.validate root
  | .principalInvestigator r, root => r.validate root

/-- `ValidationResult` (validator.py lines 8-11). -/
structure ValidationResult : Type where
  is_valid : Bool
  errors : List String
deriving DecidableEq, Repr

/-- The `for rule in self.rules` loop of validator.py lines 33-36: each
rule's result is appended when truthy (`if error:`), in configured order. -/
def runRules : List Rule → XmlElem → List String
  | [], _ => []
  | rule :: rest, root =>
    match rule.validate root with
    | some error =>
      if error.data.isEmpty then runRules rest root
      else error :: runRules rest root
    | none => runRules rest root

/-- The logging statement of validator.py line 30,
`print(f"Validating record: \x7broot.find(titlePath, NAMESPACES).text\x7d")`.
The name `NAMESPACES` is not defined anywhere in validator.py (the module
only star-imports the rules module and imports `ConfigLoader`), so
evaluating the f-string raises `NameError` for every successfully parsed
record, before any rule runs.  (Even with the intended namespace table in
scope, this line would raise `AttributeError` on `None.text` for any record
whose title path has no match.) -/
def logTitle (_root : XmlElem) : Except PyExc Unit :=
  .error .nameError

/-- `GeoNetworkValidator.validate(record_xml)` (validator.py lines 24-42),
with the outcome of `ET.fromstring(record_xml)` passed in explicitly: `.error msg`
stands for a raised `ET.ParseError` with message `msg`, `.ok root` for a
successful parse.  The `except ET.ParseError` arm appends
`"XML Parse Error: " + str(e)` to the (still empty) error list and returns
an invalid result; otherwise the logging statement runs, then every rule in
order, and line 42 returns `ValidationResult(is_valid=len(errors) == 0, errors)`. -/
def GeoNetworkValidator.validate (rules : List Rule)
    (parsed : Except String XmlElem) : Except PyExc ValidationResult :=
  match parsed with
  | .error e => .ok { is_valid := false, errors := ["XML Parse Error: " ++ e] }
  | .ok root =>
    match logTitle root with
    | .error exc => .error exc
    | .ok _ =>
      let errors := runRules rules root
      .ok { is_valid := errors.isEmpty, errors := errors }

/-- `RuleConfig` (src/config/config_loader.py lines 24-29): the fields a
rule definition actually has.  There is no `field_name` field. -/
structure RuleConfig : Type where
  type : String
  xpath : String
  field_display_name : String
  allowed_values : List String

/-- `GeoNetworkValidator._set_rules` (validator.py lines 44-59): the
`if/elif` dispatch on `rule.type` with no `else` arm.  Every recognized
branch evaluates `rule.field_name`, an attribute `RuleConfig` does not
define, so it raises `AttributeError` before constructing the rule object;
a definition whose type matches no branch (there is no
`principal_investigator` branch) is silently skipped. -/
def GeoNetworkValidator.set_rules : List RuleConfig → Except PyExc (List Rule)
  | [] => .ok []
  | rule :: rest =>
    if rule.type == "field_exists" then
      .error .attributeError  -- FieldExistsRule(rule.xpath, rule.field_name)
    else if rule.type == "value_in_list" then
      .error .attributeError  -- ValueInListRule(rule.xpath, rule.allowed_values, rule.field_name)
    else if rule.type == "float" then
      .error .attributeError  -- FloatRule(rule.xpath, rule.field_name)
    else if rule.type == "date" then
      .error .attributeError  -- DateRule(rule.xpath, rule.field_name)
    else if rule.type == "valid_purpose" then
      .error .attributeError  -- ValidPurposeRule(rule.xpath, rule.field_name)
    else if rule.type == "identifier" then
      .error .attributeError  -- IdentifierRule(rule.xpath, rule.field_name)
    else if rule.type == "citation" then
      .error .attributeError  -- CitationRule(rule.xpath, rule.field_name)
    else
      GeoNetworkValidator.set_rules rest

/-! ### Concrete sample documents used to instantiate the theorems -/

/-- A record with a single child element `identifier` holding the given text. -/
def idRecord (t : String) : XmlElem :=
  .mk "record" [] none (.cons (.mk "identifier" [] (some t) .nil) .nil)

/-- A single `purpose` element holding the given text. -/
def purposeNode (t : String) : XmlElem :=
  .mk "purpose" [] (some t) .nil

/-- A record with a single child element `purpose` holding the given text. -/
def purposeRecord (t : String) : XmlElem :=
  .mk "record" [] none (.cons (purposeNode t) .nil)

/-- A record with a single child element `field` holding the given optional text. -/
def fieldRecord (t : Option String) : XmlElem :=
  .mk "record" [] none (.cons (.mk "field" [] t .nil) .nil)

/-- A childless record: every path resolves to no match on it. -/
def emptyRecord : XmlElem :=
  .mk "record" [] none .nil

/-- Expanded tag in the `cit` namespace. -/
def citTag (t : String) : String :=
  "\x7bhttp://standards.iso.org/iso/19115/-3/cit/2.0\x7d" ++ t

/-- Expanded tag in the `gco` namespace. -/
def gcoTag (t : String) : String :=
  "\x7bhttp://standards.iso.org/iso/19115/-3/gco/1.0\x7d" ++ t

/-- A `cit:CI_Responsibility/cit:role/cit:CI_RoleCode` chain carrying the
`principalInvestigator` role code. -/
def piRoleChain : XmlElem :=
  .mk (citTag "CI_Responsibility") [] none
    (.cons
      (.mk (citTag "role") [] none
        (.cons
          (.mk (citTag "CI_RoleCode") [("codeListValue", "principalInvestigator")]
            none .nil)
          .nil))
      .nil)

/-- A `cit:individual/cit:CI_Individual/cit:name/gco:CharacterString` chain
holding an individual name. -/
def piNameChain : XmlElem :=
  .mk (citTag "individual") [] none
    (.cons
      (.mk (citTag "CI_Individual") [] none
        (.cons
          (.mk (citTag "name") [] none
            (.cons (.mk (gcoTag "CharacterString") [] (some "Alice Smith") .nil) .nil))
          .nil))
      .nil)

/-- A party with the principal-investigator role and a named individual:
all sub-checks pass on it. -/
def goodPI : XmlElem :=
  .mk "party" [] none (.cons piRoleChain (.cons piNameChain .nil))

/-- A party with the principal-investigator role but no individual name
element: the name sub-check fails on it. -/
def badPI : XmlElem :=
  .mk "party" [] none (.cons piRoleChain .nil)

/-- A record listing `goodPI` first and `badPI` second under the party path. -/
def twoPIRecord : XmlElem :=
  .mk "record" [] none (.cons goodPI (.cons badPI .nil))

/-! ### Helper lemmas -/

/-- The error-collection loop distributes over concatenation of rule lists. -/
theorem runRules_append (as bs : List Rule) (root : XmlElem) :
    runRules (as ++ bs) root = runRules as root ++ runRules bs root := by
  induction as with
  | nil => rfl
  | cons r rest ih =>
    simp only [List.cons_append, runRules]
    cases h : r.validate root with
    | none => exact ih
    | some e =>
      by_cases he : e.data = []
      · simp [he, ih]
      · simp [he, ih]

/-- If every principal-investigator party before `p` passes the sub-checks
and `p` is a principal-investigator party failing with error `e`, the party
loop returns `e`, whatever the incoming `pi_found` flag. -/
theorem pi_loop_mid (pre : List XmlElem) (p : XmlElem) (post : List XmlElem)
    (e : String) (found : Bool)
    (hpre : ∀ q ∈ pre, PrincipalInvestigatorRule.isPI q = true →
      PrincipalInvestigatorRule.partyCheck q = none)
    (hp : PrincipalInvestigatorRule.isPI p = true)
    (hc : PrincipalInvestigatorRule.partyCheck p = some e) :
    PrincipalInvestigatorRule.loop (pre ++ p :: post) found = some e := by
  induction pre generalizing found with
  | nil =>
    simp only [List.nil_append, PrincipalInvestigatorRule.loop, hp, hc, if_true]
  | cons q rest ih =>
    simp only [List.cons_append, PrincipalInvestigatorRule.loop]
    cases hq : PrincipalInvestigatorRule.isPI q with
    | false =>
      simp only [Bool.false_eq_true, if_false]
      exact ih found (fun x hx h => hpre x (List.mem_cons_of_mem q hx) h)
    | true =>
      have hqnone := hpre q (List.mem_cons_self q rest) hq
      simp only [if_true, hqnone]
      exact ih true (fun x hx h => hpre x (List.mem_cons_of_mem q hx) h)

/-! ### The claims -/

/-- Claim C1.  The claim states that `IdentifierRule.validate` accepts a
resolved text when at least one of the DOI / handle / URL branch checks
passes, returning `None` for `10.1234/xyz`, `http://hdl.handle.net/123` and
`https://example.org/record`.  The code does the opposite: each helper
returns an error string when its own check FAILS, and `validate` returns the
first truthy helper result, so a DOI gets the handle error, a handle or URL
gets the DOI error, and no non-empty identifier is ever accepted.  This
theorem evaluates the embedded code at the claim's own sample inputs. -/
theorem identifierRule_always_errors :
    IdentifierRule.validate ⟨"identifier", "identifier"⟩ (idRecord "10.1234/xyz")
        = some "Record has an invalid handle: 10.1234/xyz"
    ∧ IdentifierRule.validate ⟨"identifier", "identifier"⟩ (idRecord "http://hdl.handle.net/123")
        = some "Record has an invalid doi: http://hdl.handle.net/123"
    ∧ IdentifierRule.validate ⟨"identifier", "identifier"⟩ (idRecord "https://example.org/record")
        = some "Record has an invalid doi: https://example.org/record"
    ∧ IdentifierRule.validate ⟨"identifier", "identifier"⟩ (idRecord "ftp://example.org")
        = some "Record has an invalid doi: ftp://example.org" := by
  refine ⟨?_, ?_, ?_, ?_⟩ <;> decide

/-- Claim C2.  The claim states that no unchecked fault escapes `validate`
on any parsed document.  In the code, the logging statement on line 30 of
validator.py references the undefined name `NAMESPACES` and therefore raises
`NameError` for every successfully parsed record — whatever the configured
rule list and whatever the document — before any rule is evaluated; only
`ET.ParseError` is caught. -/
theorem validate_raises_on_parsed_records (rules : List Rule) (root : XmlElem) :
    GeoNetworkValidator.validate rules (.ok root) = .error .nameError := by
  rfl

/-- Claim C4.  The claim states that rule construction fails fast on an
unrecognized kind and that all eight recognized kinds (including
`PrincipalInvestigator`) produce rule instances.  The code has no `else` arm
and no `principal_investigator` branch, so such a definition is silently
skipped with no error; and every recognized branch reads `rule.field_name`,
an attribute `RuleConfig` does not define, so it raises `AttributeError`
instead of producing an instance. -/
theorem set_rules_skips_and_raises :
    GeoNetworkValidator.set_rules [⟨"principal_investigator", "p", "PI", []⟩] = .ok []
    ∧ GeoNetworkValidator.set_rules [⟨"bogus", "p", "x", []⟩] = .ok []
    ∧ GeoNetworkValidator.set_rules [⟨"field_exists", "p", "title", []⟩]
        = .error .attributeError := by
  exact ⟨rfl, rfl, rfl⟩

/-- Claim C5.  For every input text that fails to parse, `validate` returns
an invalid result whose error list is exactly the single entry
`"XML Parse Error: " ++ msg`, independently of the configured rules (no rule
is evaluated against an unparseable document). -/
theorem validate_parse_failure_result (rules : List Rule) (msg : String) :
    GeoNetworkValidator.validate rules (.error msg)
      = .ok { is_valid := false, errors := ["XML Parse Error: " ++ msg] } := by
  rfl

/-- Claim C6.  Every `ValidationResult` that `validate` returns satisfies
`is_valid` ⇔ the error list is empty: on the parse-failure path the result
is `(false, [one message])`, and the normal path builds
`is_valid := errors.isEmpty` by construction (though, per claim C2, that
path is unreachable because of the line-30 `NameError`). -/
theorem validation_result_invariant (rules : List Rule)
    (parsed : Except String XmlElem) (r : ValidationResult)
    (h : GeoNetworkValidator.validate rules parsed = .ok r) :
    r.is_valid = true ↔ r.errors = [] := by
  cases parsed with
  | error msg =>
    simp only [GeoNetworkValidator.validate] at h
    injection h with h'
    subst h'
    simp
  | ok root =>
    simp only [GeoNetworkValidator.validate, logTitle] at h
    exact Except.noConfusion h

/-- Witness for claim C6, instantiating it on a concrete parse failure. -/
theorem validation_result_invariant_witness :
    ((false = true) ↔ (["XML Parse Error: boom"] : List String) = []) :=
  validation_result_invariant [] (.error "boom")
    { is_valid := false, errors := ["XML Parse Error: boom"] } rfl

/-- Claim C7.  The error list collected by the rule loop preserves
rule-evaluation order: for any configured list split as
`pre ++ [r] ++ post`, the collected errors are the errors of `pre`, then
`r`'s contribution, then the errors of `post`, for every document. -/
theorem runRules_preserves_rule_order (pre post : List Rule) (r : Rule)
    (root : XmlElem) :
    runRules (pre ++ r :: post) root
      = runRules pre root ++ (runRules [r] root ++ runRules post root) := by
  have h1 : pre ++ r :: post = pre ++ ([r] ++ post) := by simp
  rw [h1, runRules_append, runRules_append]

/-- Counterexample to claim C3 as stated: on a document where the citation
path resolves to no element, `CitationRule.validate` returns `None` (the
rule passes silently) instead of the descriptive error the claim asserts. -/
theorem citationRule_missing_returns_none :
    CitationRule.validate ⟨"cite", "citation"⟩ emptyRecord = none := by
  decide

/-- Claim C3 (amended).  When a rule's path yields no match, each of
`FieldExists`, `ValueInList`, `Float`, `Date`, `ValidPurpose`, `Identifier`
and `PrincipalInvestigator` returns an explicit descriptive error string
rather than crashing or passing — but `Citation` treats the missing node as
a pass and returns `None`. -/
theorem missing_node_rule_behavior (xp fn : String) (allowed : List String)
    (rec : XmlElem)
    (hsplit : splitAttrPath xp = none)
    (hfind : XmlElem.find rec xp namespaces = none) :
    FieldExistsRule.validate ⟨xp, fn⟩ rec = some ("Record is missing a " ++ fn)
    ∧ ValueInListRule.validate ⟨xp, allowed, fn⟩ rec
        = some ("Record is missing " ++ fn ++ ".")
    ∧ FloatRule.validate ⟨xp, fn⟩ rec = some ("Record is missing " ++ fn)
    ∧ DateRule.validate ⟨xp, fn⟩ rec = some "Record has an invalid date: None"
    ∧ ValidPurposeRule.validate ⟨xp, fn⟩ rec = some ("Record is missing " ++ fn)
    ∧ IdentifierRule.validate ⟨xp, fn⟩ rec = some ("Record is missing " ++ fn)
    ∧ PrincipalInvestigatorRule.validate ⟨xp, fn⟩ rec
        = some "Record must have at least one Principal Investigator"
    ∧ CitationRule.validate ⟨xp, fn⟩ rec = none := by
  have hall : XmlElem.findall rec xp namespaces = [] := by
    cases hl : XmlElem.findall rec xp namespaces with
    | nil => rfl
    | cons a as =>
      unfold XmlElem.find at hfind
      rw [hl] at hfind
      exact Option.noConfusion hfind
  refine ⟨?_, ?_, ?_, ?_, ?_, ?_, ?_, ?_⟩
  · simp only [FieldExistsRule.validate, hsplit, hfind, ite_self]
  · simp only [ValueInListRule.validate, hsplit, hfind]
  · simp only [FloatRule.validate, hfind]
  · simp only [DateRule.validate, hfind]
  · simp only [ValidPurposeRule.validate, hfind]
  · simp only [IdentifierRule.validate, hfind]
  · simp [PrincipalInvestigatorRule.validate, hall, PrincipalInvestigatorRule.loop]
  · simp only [CitationRule.validate, hfind]

/-- Witness for claim C3 (amended), instantiated on a childless record. -/
theorem missing_node_rule_behavior_witness :
    FieldExistsRule.validate ⟨"missing", "title"⟩ emptyRecord
        = some "Record is missing a title"
    ∧ DateRule.validate ⟨"missing", "date"⟩ emptyRecord
        = some "Record has an invalid date: None"
    ∧ CitationRule.validate ⟨"missing", "citation"⟩ emptyRecord = none := by
  have h := missing_node_rule_behavior "missing" "title" [] emptyRecord rfl rfl
  have h2 := missing_node_rule_behavior "missing" "date" [] emptyRecord rfl rfl
  have h3 := missing_node_rule_behavior "missing" "citation" [] emptyRecord rfl rfl
  exact ⟨h.1, h2.2.2.2.1, h3.2.2.2.2.2.2.2⟩

/-- Claim C10.  When the Date rule's path resolves to no element, or to an
element whose text is absent or empty, the message is the
format-violation-shaped `Record has an invalid date: None` (with the literal
text `None`); whitespace-only text gives the same shape with the stripped
(empty) text — never a `missing field` message. -/
theorem dateRule_absent_message (xp fn : String) (rec : XmlElem) :
    (XmlElem.find rec xp namespaces = none →
      DateRule.validate ⟨xp, fn⟩ rec = some "Record has an invalid date: None")
    ∧ (∀ node, XmlElem.find rec xp namespaces = some node → node.text = none →
      DateRule.validate ⟨xp, fn⟩ rec = some "Record has an invalid date: None")
    ∧ (∀ node, XmlElem.find rec xp namespaces = some node → node.text = some "" →
      DateRule.validate ⟨xp, fn⟩ rec = some "Record has an invalid date: None")
    ∧ (∀ node t, XmlElem.find rec xp namespaces = some node → node.text = some t →
      t ≠ "" → pyStrip t = "" →
      DateRule.validate ⟨xp, fn⟩ rec
        = some ("Record has an invalid date: " ++ pyStrip t)) := by
  refine ⟨?_, ?_, ?_, ?_⟩
  · intro hfind
    simp only [DateRule.validate, hfind]
  · intro node hfind htext
    simp only [DateRule.validate, hfind, htext]
  · intro node hfind htext
    simp only [DateRule.validate, hfind, htext, List.isEmpty_nil, if_true]
  · intro node t hfind htext hne hstrip
    have ht : t.data.isEmpty = false := by
      cases t with
      | mk d =>
        cases d with
        | nil => exact absurd rfl hne
        | cons c cs => rfl
    have hst : (pyStrip t).data.isEmpty = true := by
      rw [hstrip]
      rfl
    simp only [DateRule.validate, hfind, htext, ht, hst, Bool.false_eq_true,
      if_false, if_true]

/-- Witness for claim C10, instantiating every branch on concrete records. -/
theorem dateRule_absent_message_witness :
    DateRule.validate ⟨"field", "date"⟩ emptyRecord
        = some "Record has an invalid date: None"
    ∧ DateRule.validate ⟨"field", "date"⟩ (fieldRecord none)
        = some "Record has an invalid date: None"
    ∧ DateRule.validate ⟨"field", "date"⟩ (fieldRecord (some ""))
        = some "Record has an invalid date: None"
    ∧ DateRule.validate ⟨"field", "date"⟩ (fieldRecord (some "   "))
        = some ("Record has an invalid date: " ++ pyStrip "   ") := by
  refine ⟨?_, ?_, ?_, ?_⟩
  · exact (dateRule_absent_message "field" "date" emptyRecord).1 rfl
  · exact (dateRule_absent_message "field" "date" (fieldRecord none)).2.1 _ rfl rfl
  · exact (dateRule_absent_message "field" "date" (fieldRecord (some ""))).2.2.1 _ rfl rfl
  · exact (dateRule_absent_message "field" "date" (fieldRecord (some "   "))).2.2.2 _ "   "
      rfl rfl (by decide) (by decide)

/-- A string different from `""` has a non-empty character list. -/
theorem data_isEmpty_false_of_ne (s : String) (h : s ≠ "") :
    s.data.isEmpty = false := by
  cases s with
  | mk d =>
    cases d with
    | nil => exact absurd rfl h
    | cons c cs => rfl

/-- Claim C8.  Given a resolved node with non-whitespace text `t`, the
ValidPurpose rule passes exactly when the raw text splits on exactly one
comma into `(contractCode, title)` and the stripped contract code matches
the pattern three uppercase letters, four digits, hyphen, three digits,
optional hyphen, three uppercase letters. -/
theorem validPurpose_pass_iff (xp fd : String) (rec node : XmlElem) (t : String)
    (hfind : XmlElem.find rec xp namespaces = some node)
    (htext : node.text = some t)
    (hstrip : pyStrip t ≠ "") :
    ValidPurposeRule.validate ⟨xp, fd⟩ rec = none ↔
      ∃ code title, pySplitCh t ',' = [code, title]
        ∧ isContractCode (pyStrip code) = true := by
  have hne : t ≠ "" := by
    intro h
    apply hstrip
    rw [h]
    rfl
  have ht := data_isEmpty_false_of_ne t hne
  have hst := data_isEmpty_false_of_ne (pyStrip t) hstrip
  simp only [ValidPurposeRule.validate, hfind, htext, ht, hst, Bool.or_self,
    Bool.false_eq_true, if_false]
  cases hsp : pySplitCh t ',' with
  | nil => simp
  | cons code rest =>
    cases rest with
    | nil => simp
    | cons title rest2 =>
      cases rest2 with
      | nil =>
        by_cases hc : isContractCode (pyStrip code) = true
        · simp [hc]
        · simp [hc]
      | cons x xs => simp

/-- Witness for claim C8: the sample purpose texts of the claim, each
settled through the theorem. -/
theorem validPurpose_pass_iff_witness :
    ValidPurposeRule.validate ⟨"purpose", "purpose"⟩
        (purposeRecord "ABC1234-567-XYZ, My Project") = none
    ∧ ValidPurposeRule.validate ⟨"purpose", "purpose"⟩
        (purposeRecord "ABC1234-567-XYZ") ≠ none
    ∧ ValidPurposeRule.validate ⟨"purpose", "purpose"⟩
        (purposeRecord "abc1234-567-xyz, title") ≠ none := by
  refine ⟨?_, ?_, ?_⟩
  · exact (validPurpose_pass_iff "purpose" "purpose"
      (purposeRecord "ABC1234-567-XYZ, My Project")
      (purposeNode "ABC1234-567-XYZ, My Project") "ABC1234-567-XYZ, My Project"
      rfl rfl (by decide)).mpr ⟨"ABC1234-567-XYZ", " My Project", by decide, by decide⟩
  · intro h
    obtain ⟨c, t', heq, _⟩ := (validPurpose_pass_iff "purpose" "purpose"
      (purposeRecord "ABC1234-567-XYZ") (purposeNode "ABC1234-567-XYZ")
      "ABC1234-567-XYZ" rfl rfl (by decide)).mp h
    rw [show pySplitCh "ABC1234-567-XYZ" ',' = ["ABC1234-567-XYZ"] from rfl] at heq
    simp at heq
  · intro h
    obtain ⟨c, t', heq, hcc⟩ := (validPurpose_pass_iff "purpose" "purpose"
      (purposeRecord "abc1234-567-xyz, title") (purposeNode "abc1234-567-xyz, title")
      "abc1234-567-xyz, title" rfl rfl (by decide)).mp h
    rw [show pySplitCh "abc1234-567-xyz, title" ',' = ["abc1234-567-xyz", " title"]
      from rfl] at heq
    obtain ⟨hc1, _⟩ := List.cons.inj heq
    subst hc1
    exact absurd hcc (by decide)

/-- Claim C9.  If the party path yields `pre ++ [p] ++ post`, every
principal-investigator party in `pre` passes the name/email/ORCID
sub-checks, and `p` is a principal-investigator party failing with error
`e`, then `PrincipalInvestigatorRule.validate` returns `e`: every
principal-investigator party must pass, and the first failing one in
document order supplies the error even when an earlier one passed. -/
theorem pi_first_failing_party (xp fd : String) (rec : XmlElem)
    (pre : List XmlElem) (p : XmlElem) (post : List XmlElem) (e : String)
    (hfindall : XmlElem.findall rec xp namespaces = pre ++ p :: post)
    (hpre : ∀ q ∈ pre, PrincipalInvestigatorRule.isPI q = true →
      PrincipalInvestigatorRule.partyCheck q = none)
    (hp : PrincipalInvestigatorRule.isPI p = true)
    (hc : PrincipalInvestigatorRule.partyCheck p = some e) :
    PrincipalInvestigatorRule.validate ⟨xp, fd⟩ rec = some e := by
  simp only [PrincipalInvestigatorRule.validate, hfindall]
  exact pi_loop_mid pre p post e false hpre hp hc

/-- Witness for claim C9: a record whose first principal-investigator party
passes all sub-checks while the second lacks a name; the rule reports the
second party's error. -/
theorem pi_first_failing_party_witness :
    PrincipalInvestigatorRule.validate ⟨"party", "PI"⟩ twoPIRecord
      = some "Principal Investigator must have a name" := by
  refine pi_first_failing_party "party" "PI" twoPIRecord [goodPI] badPI [] _
    rfl ?_ (by decide) (by decide)
  intro q hq _
  have hq2 : q = goodPI := by simpa using hq
  subst hq2
  decide

end GRDC
